import Mathlib

/-!
Verification of the SeedVest savings-group backend (finance + payments core).

Shallow embedding of:
  * `finance/models.py` — `Contribution.evaluate_status`,
    `Contribution.calculate_suggested_penalty`, `Contribution.save`,
    `AutoSavingConfig`, `MonthlySavingGeneration`;
  * `finance/constants.py` — penalty configuration constants;
  * `finance/report_service.py` — `ReportService._calculate_collection_rate`;
  * `payments/models.py` — `MpesaTransaction`;
  * `payments/signals.py` — `handle_mpesa_payment_completion`;
  * `payments/views.py` — `mpesa_callback`;
  * `finance/management/commands/generate_monthly_contributions.py` —
    `Command.handle`.

Dates are triples (year, month, day) compared lexicographically, exactly as
Python `datetime.date` compares.  Currency (`Decimal`) is embedded as `ℚ`:
every Decimal operation performed by this code (comparison, flat constants,
division by 100, multiplication) is exact on the values involved.  Django
persistence is embedded as explicit lists of rows; a `save` replaces the row
with the matching primary key, and `post_save` signal handlers run after it.
-/

namespace SeedVest

/-- Calendar date as Python `datetime.date`: (year, month, day). -/
structure PyDate where
  year : Nat
  month : Nat
  day : Nat
deriving DecidableEq, Repr

/-- Python date `<` : lexicographic on (year, month, day). -/
def PyDate.blt (a b : PyDate) : Bool :=
  decide (a.year < b.year) ||
    (decide (a.year = b.year) &&
      (decide (a.month < b.month) ||
        (decide (a.month = b.month) && decide (a.day < b.day))))

/-- Python date `<=` : lexicographic on (year, month, day). -/
def PyDate.ble (a b : PyDate) : Bool :=
  decide (a.year < b.year) ||
    (decide (a.year = b.year) &&
      (decide (a.month < b.month) ||
        (decide (a.month = b.month) && decide (a.day ≤ b.day))))

/-- Penalty configuration: the module-level constants of
`finance/constants.py` (`PENALTY_MODE`, `FIXED_MONTHLY_PENALTY`,
`PENALTY_RATE_PERCENT`).  Kept as a record so theorems can quantify over
either mode; `seedvestConstants` below is the repository's actual values. -/
structure PenaltyConfig where
  PENALTY_MODE : String
  FIXED_MONTHLY_PENALTY : ℚ
  PENALTY_RATE_PERCENT : ℚ
deriving DecidableEq, Repr

/-- The constants checked into `finance/constants.py`:
`PENALTY_MODE = "FIXED"`, `FIXED_MONTHLY_PENALTY = Decimal("100.00")`,
`PENALTY_RATE_PERCENT = Decimal("5.0")`. -/
def seedvestConstants : PenaltyConfig :=
  { PENALTY_MODE := "FIXED"
    FIXED_MONTHLY_PENALTY := 100
    PENALTY_RATE_PERCENT := 5 }

/-- Constant `MIN_MONTHLY_SAVING = Decimal("500.00")` from `finance/constants.py`. -/
def MIN_MONTHLY_SAVING : ℚ := 500

/-- A row of the `Contribution` model (`finance/models.py`).  Fields not read
by any modelled operation (`created_at`) are omitted; `id` is the primary
key. -/
structure Contribution where
  id : Nat
  userId : Nat
  groupId : Nat
  amount : ℚ
  due_date : PyDate
  paid_date : Option PyDate
  status : String
  penalty : ℚ
deriving DecidableEq, Repr

/-- Method `Contribution.evaluate_status` (`finance/models.py`):
LATE/PAID from `paid_date` vs `due_date` when paid, else OVERDUE/PENDING from
`today` vs `due_date`. -/
def Contribution.evaluate_status (today : PyDate) (c : Contribution) : String :=
  match c.paid_date with
  | some pd => if PyDate.blt c.due_date pd then "LATE" else "PAID"
  | none => if PyDate.blt c.due_date today then "OVERDUE" else "PENDING"

/-- Method `Contribution.calculate_suggested_penalty` (`finance/models.py`):
zero when paid; zero before the first of the month after the due month;
otherwise the configured flat constant (FIXED) or `rate/100 * amount`
(RATE). -/
def Contribution.calculate_suggested_penalty (cfg : PenaltyConfig)
    (today : PyDate) (c : Contribution) : ℚ :=
  match c.paid_date with
  | some _ => 0
  | none =>
    let month_start : PyDate := { c.due_date with day := 1 }
    let next_month : Nat := if month_start.month = 12 then 1 else month_start.month + 1
    let year : Nat := if month_start.month = 12 then month_start.year + 1 else month_start.year
    let penalty_start : PyDate := { year := year, month := next_month, day := 1 }
    if PyDate.blt today penalty_start then 0
    else if cfg.PENALTY_MODE = "FIXED" then cfg.FIXED_MONTHLY_PENALTY
    else if cfg.PENALTY_MODE = "RATE" then
      (cfg.PENALTY_RATE_PERCENT / 100) * c.amount
    else 0

/-- Method `Contribution.save` (`finance/models.py`): recompute `status` via
`evaluate_status`, then auto-apply the suggested penalty only when the stored
penalty is exactly zero, then persist. -/
def Contribution.save (cfg : PenaltyConfig) (today : PyDate)
    (c : Contribution) : Contribution :=
  let status := Contribution.evaluate_status today c
  let suggested_penalty := Contribution.calculate_suggested_penalty cfg today c
  let penalty := if c.penalty = 0 then suggested_penalty else c.penalty
  { c with status := status, penalty := penalty }

/-- Status derivation in the spec's wording: "PAID if paid_date <= due_date,
else LATE; else if today > due_date: OVERDUE; else PENDING." -/
def specStatus (today : PyDate) (c : Contribution) : String :=
  match c.paid_date with
  | some pd => if PyDate.ble pd c.due_date then "PAID" else "LATE"
  | none => if PyDate.blt c.due_date today then "OVERDUE" else "PENDING"

/-- The first day of the month after `d`'s month, December rolling to January
of the next year — the spec's grace-period boundary. -/
def firstOfNextMonth (d : PyDate) : PyDate :=
  if d.month = 12 then { year := d.year + 1, month := 1, day := 1 }
  else { year := d.year, month := d.month + 1, day := 1 }

/-- Penalty derivation in the spec's wording: 0 if paid, 0 strictly before
the grace boundary, else flat constant (FIXED) or `amount * rate / 100`
(RATE). -/
def specPenalty (cfg : PenaltyConfig) (today : PyDate) (c : Contribution) : ℚ :=
  if c.paid_date.isSome then 0
  else if PyDate.blt today (firstOfNextMonth c.due_date) then 0
  else if cfg.PENALTY_MODE = "FIXED" then cfg.FIXED_MONTHLY_PENALTY
  else if cfg.PENALTY_MODE = "RATE" then c.amount * cfg.PENALTY_RATE_PERCENT / 100
  else 0

/-- A row of the `MpesaTransaction` model (`payments/models.py`).  `id` is the
primary key; `contributionId`/`userId` are the nullable foreign keys;
`raw_callback` (an opaque JSON blob never read back) and `created_at` are
omitted. -/
structure MpesaTransaction where
  id : Nat
  userId : Option Nat
  contributionId : Option Nat
  phone_number : String
  amount : ℚ
  merchant_request_id : String
  checkout_request_id : String
  mpesa_receipt_number : Option String
  result_code : Option Int
  result_desc : Option String
  status : String
deriving DecidableEq, Repr

/-- A row of the `Notification` model (`notifications/models.py`), with the
fields the payments signal writes. -/
structure Notification where
  recipient : Nat
  title : String
  message : String
  type : String
  link : Option String
deriving DecidableEq, Repr

/-- Database state touched by the payments flow: transactions, contributions
and notifications. -/
structure PayState where
  transactions : List MpesaTransaction
  contributions : List Contribution
  notifications : List Notification
deriving DecidableEq, Repr

/-- Render an optional receipt as Python's f-string would (`None` when
absent). -/
def renderReceipt : Option String → String
  | some r => r
  | none => "None"

/-- Receiver `handle_mpesa_payment_completion` (`payments/signals.py`): the `post_save`
receiver on `MpesaTransaction`.  When the saved instance is SUCCESS it (1)
updates the linked contribution if its stored status is not PAID — setting
status PAID and `paid_date = timezone.now().date()` and calling
`Contribution.save`, which re-derives status — and (2) creates a notification
for the transaction's user.  It runs on every save of a SUCCESS transaction:
there is no `created` or terminal-state guard around the notification. -/
def handle_mpesa_payment_completion (cfg : PenaltyConfig) (today : PyDate)
    (inst : MpesaTransaction) (st : PayState) : PayState :=
  if inst.status = "SUCCESS" then
    let st1 :=
      match inst.contributionId with
      | some cid =>
        { st with
          contributions := st.contributions.map (fun c =>
            if c.id = cid then
              if c.status = "PAID" then c
              else Contribution.save cfg today
                { c with status := "PAID", paid_date := some today }
            else c) }
      | none => st
    match inst.userId with
    | some uid =>
      { st1 with
        notifications := st1.notifications ++
          [{ recipient := uid
             title := "Payment Successful"
             message := "Your M-Pesa payment of KES " ++ toString inst.amount ++
               " was successful. Receipt: " ++ renderReceipt inst.mpesa_receipt_number
             type := "SUCCESS"
             link := some ("/payments/transactions/" ++ toString inst.id ++ "/") }] }
    | none => st1
  else st

/-- The parsed shape of an inbound callback request body, as
`payments/views.py` consumes it: `malformed` is a body `json.loads` rejects
(the handler's generic `except` catches the raised error, whose text is the
carried string); `missingStk` is JSON without `Body.stkCallback`; `stk`
carries `CheckoutRequestID`, `ResultCode`, `ResultDesc` and the
`MpesaReceiptNumber` metadata item when present. -/
inductive CallbackPayload where
  | malformed (errText : String)
  | missingStk
  | stk (checkoutRequestId : Option String) (resultCode : Option Int)
      (resultDesc : Option String) (receipt : Option String)
deriving DecidableEq, Repr

/-- The HTTP reply of the callback endpoint: HTTP status plus the JSON body's
`ResultCode` and `ResultDesc`. -/
structure CallbackResponse where
  httpStatus : Nat
  resultCode : Int
  resultDesc : String
deriving DecidableEq, Repr

/-- View `mpesa_callback` (`payments/views.py`): look the transaction up by
`CheckoutRequestID`; on result code 0 mark it SUCCESS and copy the receipt
from the metadata; otherwise mark it FAILED; save (firing the `post_save`
signal) and acknowledge with HTTP 200 / body code 0.  Malformed JSON is
answered 500, a missing `stkCallback` or `CheckoutRequestID` 400, an unknown
checkout id 404 — each with body code 1. -/
def mpesa_callback (cfg : PenaltyConfig) (today : PyDate)
    (payload : CallbackPayload) (st : PayState) : PayState × CallbackResponse :=
  match payload with
  | .malformed errText => (st, { httpStatus := 500, resultCode := 1, resultDesc := errText })
  | .missingStk => (st, { httpStatus := 400, resultCode := 1, resultDesc := "Invalid data" })
  | .stk none _ _ _ => (st, { httpStatus := 400, resultCode := 1, resultDesc := "Invalid data" })
  | .stk (some checkout_id) rc rd receipt =>
    match st.transactions.find? (fun t => t.checkout_request_id = checkout_id) with
    | none => (st, { httpStatus := 404, resultCode := 1, resultDesc := "Transaction not found" })
    | some txn =>
      let txn1 := { txn with result_code := rc, result_desc := rd }
      let txn2 :=
        if rc = some 0 then
          { txn1 with
            status := "SUCCESS"
            mpesa_receipt_number :=
              match receipt with
              | some r => some r
              | none => txn1.mpesa_receipt_number }
        else { txn1 with status := "FAILED" }
      let st1 := { st with
        transactions := st.transactions.map (fun t => if t.id = txn.id then txn2 else t) }
      let st2 := handle_mpesa_payment_completion cfg today txn2 st1
      (st2, { httpStatus := 200, resultCode := 0, resultDesc := "Accepted" })

/-- A row of the `AutoSavingConfig` model (`finance/models.py`). -/
structure AutoSavingConfig where
  id : Nat
  userId : Nat
  groupId : Nat
  amount : ℚ
  is_active : Bool
  day_of_month : Nat
deriving DecidableEq, Repr

/-- A row of the `MonthlySavingGeneration` audit model (`finance/models.py`):
unique per (config, generated_for_month). -/
structure MonthlySavingGeneration where
  configId : Nat
  contributionId : Nat
  generated_for_month : PyDate
deriving DecidableEq, Repr

/-- Database state touched by the monthly generator. -/
structure GenDB where
  contributions : List Contribution
  generations : List MonthlySavingGeneration
  notifications : List Notification
deriving DecidableEq, Repr

/-- Python `calendar.isleap`. -/
def isLeapYear (y : Nat) : Bool :=
  (decide (y % 4 = 0) && decide (y % 100 ≠ 0)) || decide (y % 400 = 0)

/-- Number of days of month `m` of year `y`, as
`calendar.monthrange(y, m)[1]`. -/
def daysInMonth (y m : Nat) : Nat :=
  if m = 2 then (if isLeapYear y then 29 else 28)
  else if m = 4 ∨ m = 6 ∨ m = 9 ∨ m = 11 then 30
  else 31

/-- Outcome counters printed by the command: contributions created and configs
skipped. -/
structure GenCounts where
  created : Nat
  skipped : Nat
deriving DecidableEq, Repr

/-- The per-config loop body of `Command.handle`
(`generate_monthly_contributions.py`), folded over the active configs.
For each config: if a `MonthlySavingGeneration` row for (config, target
month) exists, count it skipped; under `--dry-run` only count; otherwise
create the Contribution (with `status="PENDING"`, due the last day of the
target month — `Contribution.objects.create` runs the model `save`, which
re-derives status and penalty), the audit row and one notification, and count
it created.  `nextId` threads the Contribution primary-key sequence. -/
def generateLoop (cfg : PenaltyConfig) (today : PyDate) (target_date : PyDate)
    (due_date : PyDate) (dry_run : Bool) :
    List AutoSavingConfig → GenDB → Nat → GenCounts → GenDB × GenCounts
  | [], db, _, counts => (db, counts)
  | config :: rest, db, nextId, counts =>
    let already_generated := db.generations.any (fun g =>
      decide (g.configId = config.id) && decide (g.generated_for_month = target_date))
    if already_generated then
      generateLoop cfg today target_date due_date dry_run rest db nextId
        { counts with skipped := counts.skipped + 1 }
    else if dry_run then
      generateLoop cfg today target_date due_date dry_run rest db nextId
        { counts with created := counts.created + 1 }
    else
      let contribution := Contribution.save cfg today
        { id := nextId
          userId := config.userId
          groupId := config.groupId
          amount := config.amount
          due_date := due_date
          paid_date := none
          status := "PENDING"
          penalty := 0 }
      let db1 : GenDB :=
        { contributions := db.contributions ++ [contribution]
          generations := db.generations ++
            [{ configId := config.id, contributionId := nextId,
               generated_for_month := target_date }]
          notifications := db.notifications ++
            [{ recipient := config.userId
               type := "SUCCESS"
               title := "Monthly Auto-Save Scheduled"
               message := "Your monthly auto-save of KSh " ++ toString config.amount ++
                 " has been scheduled. Due by " ++ toString due_date.year ++ "-" ++
                 toString due_date.month ++ "-" ++ toString due_date.day ++ "."
               link := none }] }
      generateLoop cfg today target_date due_date dry_run rest db1 (nextId + 1)
        { counts with created := counts.created + 1 }

/-- Entry point `Command.handle` (`generate_monthly_contributions.py`) after month-argument
parsing: `target_date` is the first of the target month (`date(year, month,
1)`), the due date is its last calendar day, and the loop runs over the
active configs only. -/
def Command.handle (cfg : PenaltyConfig) (today : PyDate) (target_date : PyDate)
    (dry_run : Bool) (configs : List AutoSavingConfig) (db : GenDB)
    (nextId : Nat) : GenDB × GenCounts :=
  let due_date : PyDate :=
    { year := target_date.year, month := target_date.month,
      day := daysInMonth target_date.year target_date.month }
  let active_configs := configs.filter (fun c => c.is_active)
  generateLoop cfg today target_date due_date dry_run active_configs db nextId
    { created := 0, skipped := 0 }

/-- Python's banker's rounding (`round`) to an integer: round half to even. -/
def roundHalfEven (q : ℚ) : ℤ :=
  let n : ℤ := ⌊q⌋
  let frac : ℚ := q - (n : ℚ)
  if frac < 1 / 2 then n
  else if 1 / 2 < frac then n + 1
  else if n % 2 = 0 then n else n + 1

/-- Python `round(x, 2)`. -/
def pyRound2 (q : ℚ) : ℚ := (roundHalfEven (q * 100) : ℚ) / 100

/-- Method `ReportService._calculate_collection_rate` (`finance/report_service.py`):
100 over an empty queryset, else `round(paid_count / total_count * 100, 2)`.
The queryset is embedded as the list of contribution rows it would yield; the
Python float division is embedded as exact rational division. -/
def ReportService.calculate_collection_rate (cs : List Contribution) : ℚ :=
  let total_count := cs.length
  if total_count = 0 then 100
  else
    let paid_count := (cs.filter (fun c => c.status = "PAID")).length
    pyRound2 (((paid_count : ℚ) / (total_count : ℚ)) * 100)

/-! Concrete rows used to instantiate the theorems below. -/

/-- An unpaid contribution due 2025-01-31 (the spec's running example). -/
def exampleUnpaid : Contribution :=
  { id := 1, userId := 1, groupId := 1, amount := 500,
    due_date := { year := 2025, month := 1, day := 31 },
    paid_date := none, status := "PENDING", penalty := 0 }

/-- The same row with a manually overridden (nonzero) penalty. -/
def exampleOverridden : Contribution :=
  { exampleUnpaid with id := 7, penalty := 55 }

/-- A contribution paid on time (2025-01-20, before its 2025-01-31 due
date). -/
def examplePaidRow : Contribution :=
  { exampleUnpaid with
    id := 11,
    paid_date := some { year := 2025, month := 1, day := 20 },
    status := "PAID" }

/-- Three rows of one group's month, exactly one of them PAID. -/
def exampleRows : List Contribution :=
  [examplePaidRow,
   { exampleUnpaid with id := 2 },
   { exampleUnpaid with id := 3, status := "OVERDUE", penalty := 100 }]

/-- A pending transaction awaiting its provider callback, linked to
contribution 1 (`exampleUnpaid`) and user 5. -/
def payTxn : MpesaTransaction :=
  { id := 21, userId := some 5, contributionId := some 1,
    phone_number := "254708873060", amount := 500,
    merchant_request_id := "m-21", checkout_request_id := "ws_CO_21",
    mpesa_receipt_number := none, result_code := none, result_desc := none,
    status := "PENDING" }

/-- Database state before the callback arrives. -/
def payState0 : PayState :=
  { transactions := [payTxn], contributions := [exampleUnpaid],
    notifications := [] }

/-- The provider's success callback for `payTxn`. -/
def payPayload : CallbackPayload :=
  .stk (some "ws_CO_21") (some 0)
    (some "The service request is processed successfully.") (some "UBCEJ6G79B")

/-- State after the success callback is first processed, on 2025-02-10
(after the 2025-01-31 due date). -/
def payAfterFirst : PayState :=
  (mpesa_callback seedvestConstants { year := 2025, month := 2, day := 10 }
    payPayload payState0).1

/-- State after the identical callback is re-delivered on 2025-02-12. -/
def payAfterSecond : PayState :=
  (mpesa_callback seedvestConstants { year := 2025, month := 2, day := 12 }
    payPayload payAfterFirst).1

/-- An already-settled SUCCESS transaction (receipt and result fields
stored). -/
def paySettledTxn : MpesaTransaction :=
  { payTxn with
    status := "SUCCESS", result_code := some 0,
    result_desc := some "The service request is processed successfully.",
    mpesa_receipt_number := some "UBCEJ6G79B" }

/-- A settled state: the transaction is SUCCESS and its linked contribution
is stored PAID (it was paid on time). -/
def paySettledState : PayState :=
  { transactions := [paySettledTxn],
    contributions := [{ examplePaidRow with id := 1 }],
    notifications := [] }

/-- Outcome of a callback naming a checkout id with no matching
transaction. -/
def payUnknownOut : PayState × CallbackResponse :=
  mpesa_callback seedvestConstants { year := 2025, month := 2, day := 10 }
    (.stk (some "ws_CO_MISSING") (some 0) (some "ok") none) payState0

/-- Number of audit rows for a given (config, target month) pair. -/
def generationCount (gens : List MonthlySavingGeneration) (configId : Nat)
    (m : PyDate) : Nat :=
  (gens.filter (fun g =>
    decide (g.configId = configId) && decide (g.generated_for_month = m))).length

/-- An active auto-saving config. -/
def genConfig : AutoSavingConfig :=
  { id := 31, userId := 4, groupId := 2, amount := 500, is_active := true,
    day_of_month := 1 }

/-- An empty generator database. -/
def genDB0 : GenDB :=
  { contributions := [], generations := [], notifications := [] }

/-! Helper lemmas: totality of the date order. -/

theorem PyDate.blt_eq_false_iff (a b : PyDate) :
    PyDate.blt a b = false ↔ PyDate.ble b a = true := by
  simp only [PyDate.blt, PyDate.ble, Bool.or_eq_false_iff, Bool.or_eq_true,
    Bool.and_eq_false_iff, Bool.and_eq_true, decide_eq_false_iff_not,
    decide_eq_true_eq]
  omega

theorem PyDate.blt_eq_true_iff (a b : PyDate) :
    PyDate.blt a b = true ↔ PyDate.ble b a = false := by
  have h := PyDate.blt_eq_false_iff a b
  cases hb : PyDate.blt a b <;> cases hl : PyDate.ble b a <;> simp_all

/-- The code's suggested-penalty computation coincides with the spec-side
`specPenalty` on every input (shared by several claims). -/
theorem calculate_eq_specPenalty (cfg : PenaltyConfig) (today : PyDate)
    (c : Contribution) :
    Contribution.calculate_suggested_penalty cfg today c =
      specPenalty cfg today c := by
  unfold Contribution.calculate_suggested_penalty specPenalty firstOfNextMonth
  cases hp : c.paid_date with
  | some pd => simp [hp]
  | none =>
    simp only [hp, Option.isSome_none, Bool.false_eq_true, if_false]
    by_cases hm : c.due_date.month = 12 <;> simp only [hm, if_true, if_false] <;>
      split_ifs <;> first | rfl | ring

/-- Claim C2: for every Contribution, the derived status is PAID if
`paid_date` is set and `paid_date <= due_date` (regardless of the current
date — the paid branch never reads `today`), LATE if `paid_date` is set and
`paid_date > due_date`, OVERDUE if `paid_date` is unset and `today >
due_date`, and PENDING otherwise: `evaluate_status` coincides with the spec's
case analysis on every input. -/
theorem claim_C2_status_derivation (today : PyDate) (c : Contribution) :
    Contribution.evaluate_status today c = specStatus today c := by
  unfold Contribution.evaluate_status specStatus
  cases c.paid_date with
  | none => rfl
  | some pd =>
    cases hb : PyDate.blt c.due_date pd with
    | false => have h2 := (PyDate.blt_eq_false_iff _ _).mp hb; simp [hb, h2]
    | true => have h2 := (PyDate.blt_eq_true_iff _ _).mp hb; simp [hb, h2]

/-- Claim C3: `calculate_suggested_penalty` returns 0 when paid, 0 strictly
before the first of the month after the due month (December rolling to
January of the next year), and otherwise the flat constant in FIXED mode or
`amount * rate / 100` in RATE mode — it equals the spec-side `specPenalty`
on every input; and on the spec's concrete example (due 2025-01-31, FIXED
mode, constant 100.00, unpaid) it yields 100.00 at today = 2025-02-15 and
0.00 at today = 2025-01-20. -/
theorem claim_C3_penalty_derivation :
    (∀ (cfg : PenaltyConfig) (today : PyDate) (c : Contribution),
      Contribution.calculate_suggested_penalty cfg today c = specPenalty cfg today c)
    ∧ Contribution.calculate_suggested_penalty seedvestConstants
        { year := 2025, month := 2, day := 15 } exampleUnpaid = 100
    ∧ Contribution.calculate_suggested_penalty seedvestConstants
        { year := 2025, month := 1, day := 20 } exampleUnpaid = 0 := by
  exact ⟨calculate_eq_specPenalty, by decide, by decide⟩

/-- Claim C4: on every Contribution save the automatic penalty is applied
only when the stored penalty is exactly zero; any nonzero stored penalty
(a manual override) survives the recompute unchanged, whatever the suggested
value. -/
theorem claim_C4_manual_penalty_sticky (cfg : PenaltyConfig) (today : PyDate)
    (c : Contribution) (h : c.penalty ≠ 0) :
    (Contribution.save cfg today c).penalty = c.penalty := by
  unfold Contribution.save
  simp [h]

theorem claim_C4_manual_penalty_sticky_witness :
    exampleOverridden.penalty ≠ 0
    ∧ (Contribution.save seedvestConstants { year := 2025, month := 3, day := 10 }
        exampleOverridden).penalty = exampleOverridden.penalty :=
  ⟨by decide, claim_C4_manual_penalty_sticky _ _ _ (by decide)⟩

/-- Claim C9: the model-layer save unconditionally recomputes the stored
status from the dates: whatever status `s` a caller assigns before saving,
the persisted status equals `evaluate_status` of the dates — there is no
skip-evaluation path, so no caller can persist a status differing from the
date-based inference. -/
theorem claim_C9_save_overwrites_status (cfg : PenaltyConfig) (today : PyDate)
    (c : Contribution) (s : String) :
    (Contribution.save cfg today { c with status := s }).status =
      Contribution.evaluate_status today c := by
  rfl

/-- Claim C8: the collection rate over zero contributions is 100; over a
nonempty list of N contributions of which K are PAID it is
`round(100 * K / N, 2)` (banker's rounding, as Python `round`); the
aggregation is a pure function of the rows.  The third conjunct instantiates
the formula: one PAID row out of three gives 33.33. -/
theorem claim_C8_collection_rate :
    ReportService.calculate_collection_rate [] = 100
    ∧ (∀ cs : List Contribution, cs ≠ [] →
        ReportService.calculate_collection_rate cs =
          pyRound2 (100 * ((cs.filter (fun c => c.status = "PAID")).length : ℚ) /
            (cs.length : ℚ)))
    ∧ ReportService.calculate_collection_rate exampleRows = 3333 / 100 := by
  refine ⟨rfl, fun cs h => ?_, ?_⟩
  · unfold ReportService.calculate_collection_rate
    rw [if_neg (by simpa using h)]
    ring_nf
  · show ReportService.calculate_collection_rate exampleRows = 3333 / 100
    have hlen : exampleRows.length = 3 := by
      simp [exampleRows]
    have hfil : (exampleRows.filter (fun c => c.status = "PAID")).length = 1 := by
      simp +decide [exampleRows, examplePaidRow, exampleUnpaid]
    simp only [ReportService.calculate_collection_rate, hlen, hfil]
    norm_num [pyRound2, roundHalfEven]

theorem claim_C8_collection_rate_witness :
    ([exampleUnpaid] : List Contribution) ≠ []
    ∧ ReportService.calculate_collection_rate [exampleUnpaid] =
      pyRound2 (100 * ((([exampleUnpaid] : List Contribution).filter
          (fun c => c.status = "PAID")).length : ℚ) /
        (([exampleUnpaid] : List Contribution).length : ℚ)) :=
  ⟨by decide, claim_C8_collection_rate.2.1 _ (by decide)⟩

/-! Path lemmas for the callback pipeline, shared by the payment claims. -/

theorem mpesa_callback_success_path (cfg : PenaltyConfig) (today : PyDate)
    (st : PayState) (cid : String) (rd : Option String) (r : String)
    (txn : MpesaTransaction)
    (hfind : st.transactions.find? (fun t => t.checkout_request_id = cid) = some txn) :
    mpesa_callback cfg today (.stk (some cid) (some 0) rd (some r)) st =
      (handle_mpesa_payment_completion cfg today
        { txn with
          result_code := some 0, result_desc := rd,
          status := "SUCCESS", mpesa_receipt_number := some r }
        { st with transactions := st.transactions.map (fun t =>
            if t.id = txn.id then
              { txn with
                result_code := some 0, result_desc := rd,
                status := "SUCCESS", mpesa_receipt_number := some r }
            else t) },
       { httpStatus := 200, resultCode := 0, resultDesc := "Accepted" }) := by
  simp only [mpesa_callback]
  rw [hfind]
  simp

theorem handle_success_transactions (cfg : PenaltyConfig) (today : PyDate)
    (inst : MpesaTransaction) (st : PayState) (hs : inst.status = "SUCCESS") :
    (handle_mpesa_payment_completion cfg today inst st).transactions =
      st.transactions := by
  unfold handle_mpesa_payment_completion
  rw [if_pos hs]
  cases inst.contributionId <;> cases inst.userId <;> rfl

theorem handle_success_contributions (cfg : PenaltyConfig) (today : PyDate)
    (inst : MpesaTransaction) (st : PayState) (cn : Nat)
    (hs : inst.status = "SUCCESS") (hcn : inst.contributionId = some cn) :
    (handle_mpesa_payment_completion cfg today inst st).contributions =
      st.contributions.map (fun c =>
        if c.id = cn then
          if c.status = "PAID" then c
          else Contribution.save cfg today
            { c with status := "PAID", paid_date := some today }
        else c) := by
  unfold handle_mpesa_payment_completion
  rw [if_pos hs, hcn]
  cases inst.userId <;> rfl

theorem handle_success_notifications (cfg : PenaltyConfig) (today : PyDate)
    (inst : MpesaTransaction) (st : PayState) (uid : Nat)
    (hs : inst.status = "SUCCESS") (hu : inst.userId = some uid) :
    (handle_mpesa_payment_completion cfg today inst st).notifications =
      st.notifications ++
        [{ recipient := uid, title := "Payment Successful",
           message := "Your M-Pesa payment of KES " ++ toString inst.amount ++
             " was successful. Receipt: " ++ renderReceipt inst.mpesa_receipt_number,
           type := "SUCCESS",
           link := some ("/payments/transactions/" ++ toString inst.id ++ "/") }] := by
  unfold handle_mpesa_payment_completion
  rw [if_pos hs, hu]
  cases inst.contributionId <;> rfl

/-- Claim C1 counterexample: the success callback processed on 2025-02-10 for
a contribution due 2025-01-31 marks the transaction SUCCESS with the receipt
stored and persists `paid_date = 2025-02-10`, but the stored contribution
status is LATE, not PAID: the model save re-runs the date-based status
engine, contradicting the claim that it is bypassed. -/
theorem claim_C1_counterexample :
    payAfterFirst.transactions.map (fun t => t.status) = ["SUCCESS"]
    ∧ payAfterFirst.transactions.map (fun t => t.mpesa_receipt_number) =
        [some "UBCEJ6G79B"]
    ∧ payAfterFirst.contributions.map (fun c => c.paid_date) =
        [some { year := 2025, month := 2, day := 10 }]
    ∧ payAfterFirst.contributions.map (fun c => c.status) = ["LATE"]
    ∧ ("LATE" : String) ≠ "PAID" := by
  decide

/-- Claim C1 (amended): on a result-code-0 callback that matches a
transaction, the transaction row is persisted SUCCESS with the provider
receipt stored, and a linked contribution whose stored status is not PAID is
re-saved with `paid_date` equal to the processing date; the model save
re-derives the stored status from the dates instead of keeping the assigned
PAID, so it is persisted PAID when `paid_date <= due_date` and LATE when
`paid_date > due_date`. -/
theorem claim_C1_success_propagation (cfg : PenaltyConfig) (today : PyDate)
    (st : PayState) (cid : String) (rd : Option String) (r : String)
    (txn : MpesaTransaction)
    (hfind : st.transactions.find? (fun t => t.checkout_request_id = cid) = some txn) :
    (mpesa_callback cfg today (.stk (some cid) (some 0) rd (some r)) st).2 =
      { httpStatus := 200, resultCode := 0, resultDesc := "Accepted" }
    ∧ (∀ t ∈ (mpesa_callback cfg today (.stk (some cid) (some 0) rd (some r)) st).1.transactions,
        t.id = txn.id → t.status = "SUCCESS" ∧ t.mpesa_receipt_number = some r)
    ∧ (∀ cn, txn.contributionId = some cn →
        (mpesa_callback cfg today (.stk (some cid) (some 0) rd (some r)) st).1.contributions =
          st.contributions.map (fun c =>
            if c.id = cn then
              if c.status = "PAID" then c
              else Contribution.save cfg today
                { c with status := "PAID", paid_date := some today }
            else c))
    ∧ (∀ c : Contribution, c.status ≠ "PAID" →
        (Contribution.save cfg today
            { c with status := "PAID", paid_date := some today }).paid_date = some today
        ∧ (Contribution.save cfg today
            { c with status := "PAID", paid_date := some today }).status =
          (if PyDate.blt c.due_date today then "LATE" else "PAID")) := by
  rw [mpesa_callback_success_path cfg today st cid rd r txn hfind]
  refine ⟨rfl, ?_, ?_, ?_⟩
  · intro t ht hid
    rw [handle_success_transactions cfg today _ _ rfl] at ht
    simp only [List.mem_map] at ht
    obtain ⟨t0, _, hmap⟩ := ht
    by_cases h0 : t0.id = txn.id
    · rw [if_pos h0] at hmap
      subst hmap
      exact ⟨rfl, rfl⟩
    · rw [if_neg h0] at hmap
      subst hmap
      exact absurd hid h0
  · intro cn hcn
    exact handle_success_contributions cfg today _ _ cn rfl hcn
  · intro c _
    exact ⟨rfl, rfl⟩

theorem claim_C1_success_propagation_witness :
    payState0.transactions.find? (fun t => t.checkout_request_id = "ws_CO_21") =
      some payTxn
    ∧ (mpesa_callback seedvestConstants { year := 2025, month := 2, day := 10 }
        (.stk (some "ws_CO_21") (some 0) (some "ok") (some "UBCEJ6G79B"))
        payState0).2 =
      { httpStatus := 200, resultCode := 0, resultDesc := "Accepted" } :=
  ⟨by decide,
   (claim_C1_success_propagation seedvestConstants
      { year := 2025, month := 2, day := 10 } payState0 "ws_CO_21" (some "ok")
      "UBCEJ6G79B" payTxn (by decide)).1⟩

theorem list_map_self {α : Type} (l : List α) (f : α → α)
    (h : ∀ a ∈ l, f a = a) : l.map f = l := by
  induction l with
  | nil => rfl
  | cons x xs ih => simp_all

/-- Claim C6 counterexample: re-delivering the identical success callback
two days later (transaction already SUCCESS) creates a second notification
and moves the linked contribution's `paid_date` from 2025-02-10 to
2025-02-12 — the `post_save` signal has no terminal-state guard around the
notification, and the contribution's stored status is LATE (≠ PAID), so its
`paid_date` is rewritten. -/
theorem claim_C6_counterexample :
    payAfterFirst.notifications.length = 1
    ∧ payAfterSecond.notifications.length = 2
    ∧ payAfterFirst.contributions.map (fun c => c.paid_date) =
        [some { year := 2025, month := 2, day := 10 }]
    ∧ payAfterSecond.contributions.map (fun c => c.paid_date) =
        [some { year := 2025, month := 2, day := 12 }] := by
  decide

/-- Claim C6 (amended): re-processing the same success callback once the
transaction is already SUCCESS (result fields and receipt already stored)
leaves the transaction rows unchanged and, when the linked contribution's
stored status is PAID, performs no contribution write; but each delivery
appends one more notification.  (When the stored status is LATE instead, the
contribution is re-saved with `paid_date` moved to the new processing date —
see the counterexample.) -/
theorem claim_C6_redelivery (cfg : PenaltyConfig) (today : PyDate)
    (st : PayState) (cid : String) (rd : Option String) (r : String)
    (txn : MpesaTransaction) (cn uid : Nat)
    (hfind : st.transactions.find? (fun t => t.checkout_request_id = cid) = some txn)
    (hs : txn.status = "SUCCESS")
    (hrc : txn.result_code = some 0)
    (hrd : txn.result_desc = rd)
    (hr : txn.mpesa_receipt_number = some r)
    (hcn : txn.contributionId = some cn)
    (hu : txn.userId = some uid)
    (huniq : ∀ t ∈ st.transactions, t.id = txn.id → t = txn)
    (hpaid : ∀ c ∈ st.contributions, c.id = cn → c.status = "PAID") :
    (mpesa_callback cfg today (.stk (some cid) (some 0) rd (some r)) st).1.transactions =
      st.transactions
    ∧ (mpesa_callback cfg today (.stk (some cid) (some 0) rd (some r)) st).1.contributions =
        st.contributions
    ∧ (mpesa_callback cfg today (.stk (some cid) (some 0) rd (some r)) st).1.notifications =
        st.notifications ++
          [{ recipient := uid, title := "Payment Successful",
             message := "Your M-Pesa payment of KES " ++ toString txn.amount ++
               " was successful. Receipt: " ++ renderReceipt (some r),
             type := "SUCCESS",
             link := some ("/payments/transactions/" ++ toString txn.id ++ "/") }]
    ∧ (mpesa_callback cfg today (.stk (some cid) (some 0) rd (some r)) st).2 =
        { httpStatus := 200, resultCode := 0, resultDesc := "Accepted" } := by
  have htxn2 : ({ txn with
      result_code := some 0, result_desc := rd,
      status := "SUCCESS", mpesa_receipt_number := some r } : MpesaTransaction) = txn := by
    cases txn
    simp_all
  rw [mpesa_callback_success_path cfg today st cid rd r txn hfind, htxn2]
  have hmapT : st.transactions.map (fun t => if t.id = txn.id then txn else t) =
      st.transactions := by
    refine list_map_self _ _ (fun t ht => ?_)
    by_cases h0 : t.id = txn.id
    · rw [if_pos h0, (huniq t ht h0)]
    · rw [if_neg h0]
  refine ⟨?_, ?_, ?_, rfl⟩
  · rw [handle_success_transactions cfg today txn _ hs]
    simpa using hmapT
  · rw [handle_success_contributions cfg today txn _ cn hs hcn]
    show st.contributions.map _ = st.contributions
    refine list_map_self _ _ (fun c hc => ?_)
    by_cases h1 : c.id = cn
    · rw [if_pos h1, if_pos (hpaid c hc h1)]
    · rw [if_neg h1]
  · rw [handle_success_notifications cfg today txn _ uid hs hu]
    rw [hr]

theorem claim_C6_redelivery_witness :
    paySettledState.transactions.find?
        (fun t => t.checkout_request_id = "ws_CO_21") = some paySettledTxn
    ∧ (mpesa_callback seedvestConstants { year := 2025, month := 2, day := 12 }
        (.stk (some "ws_CO_21") (some 0)
          (some "The service request is processed successfully.")
          (some "UBCEJ6G79B")) paySettledState).1.contributions =
      paySettledState.contributions :=
  ⟨by decide,
   (claim_C6_redelivery seedvestConstants { year := 2025, month := 2, day := 12 }
      paySettledState "ws_CO_21"
      (some "The service request is processed successfully.") "UBCEJ6G79B"
      paySettledTxn 1 5 (by decide) rfl rfl rfl rfl rfl rfl (by decide)
      (by decide)).2.1⟩

/-- Claim C7 counterexample: a callback naming an unknown checkout id is
answered with HTTP status 404, not a 200-shaped response (the body does carry
internal result code 1, and no state is mutated). -/
theorem claim_C7_counterexample :
    payUnknownOut.2.httpStatus = 404
    ∧ payUnknownOut.2.httpStatus ≠ 200
    ∧ payUnknownOut.2.resultCode = 1
    ∧ payUnknownOut.1 = payState0 := by
  decide

/-- Claim C7 (amended): the callback endpoint always answers with a JSON body
carrying an internal result code — 0 exactly on the processed (HTTP 200)
path and 1 on every error path — but the HTTP status is not always
200-shaped: malformed payloads yield 500, a missing `stkCallback` or
`CheckoutRequestID` yields 400, and an unknown checkout id yields 404 with no
state mutated. -/
theorem claim_C7_acknowledgment (cfg : PenaltyConfig) (today : PyDate)
    (payload : CallbackPayload) (st : PayState) :
    ((mpesa_callback cfg today payload st).2.resultCode = 0
      ∨ (mpesa_callback cfg today payload st).2.resultCode = 1)
    ∧ ((mpesa_callback cfg today payload st).2.httpStatus = 200 ↔
        (mpesa_callback cfg today payload st).2.resultCode = 0)
    ∧ (∀ e, payload = .malformed e →
        (mpesa_callback cfg today payload st).1 = st
        ∧ (mpesa_callback cfg today payload st).2 =
            { httpStatus := 500, resultCode := 1, resultDesc := e })
    ∧ (payload = .missingStk →
        (mpesa_callback cfg today payload st).1 = st
        ∧ (mpesa_callback cfg today payload st).2 =
            { httpStatus := 400, resultCode := 1, resultDesc := "Invalid data" })
    ∧ (∀ rc rd rcpt, payload = .stk none rc rd rcpt →
        (mpesa_callback cfg today payload st).1 = st
        ∧ (mpesa_callback cfg today payload st).2 =
            { httpStatus := 400, resultCode := 1, resultDesc := "Invalid data" })
    ∧ (∀ cid rc rd rcpt, payload = .stk (some cid) rc rd rcpt →
        st.transactions.find? (fun t => t.checkout_request_id = cid) = none →
        (mpesa_callback cfg today payload st).1 = st
        ∧ (mpesa_callback cfg today payload st).2 =
            { httpStatus := 404, resultCode := 1,
              resultDesc := "Transaction not found" }) := by
  cases payload with
  | malformed e =>
    refine ⟨Or.inr rfl, by simp [mpesa_callback], ?_, ?_, ?_, ?_⟩
    · intro e' he
      cases he
      exact ⟨rfl, rfl⟩
    · intro he
      cases he
    · intro rc rd rcpt he
      cases he
    · intro cid rc rd rcpt he
      cases he
  | missingStk =>
    refine ⟨Or.inr rfl, by simp [mpesa_callback], ?_, ?_, ?_, ?_⟩
    · intro e' he
      cases he
    · intro _
      exact ⟨rfl, rfl⟩
    · intro rc rd rcpt he
      cases he
    · intro cid rc rd rcpt he
      cases he
  | stk ckid rc rd rcpt =>
    cases ckid with
    | none =>
      refine ⟨Or.inr rfl, by simp [mpesa_callback], ?_, ?_, ?_, ?_⟩
      · intro e' he
        cases he
      · intro he
        cases he
      · intro rc' rd' rcpt' he
        exact ⟨rfl, rfl⟩
      · intro cid rc' rd' rcpt' he
        cases he
    | some cid =>
      cases hf : st.transactions.find? (fun t => t.checkout_request_id = cid) with
      | none =>
        refine ⟨?_, ?_, ?_, ?_, ?_, ?_⟩
        · right
          simp [mpesa_callback, hf]
        · simp [mpesa_callback, hf]
        · intro e' he
          cases he
        · intro he
          cases he
        · intro rc' rd' rcpt' he
          cases he
        · intro cid' rc' rd' rcpt' he hnone
          cases he
          exact ⟨by simp [mpesa_callback, hf], by simp [mpesa_callback, hf]⟩
      | some txn =>
        refine ⟨?_, ?_, ?_, ?_, ?_, ?_⟩
        · left
          simp [mpesa_callback, hf]
        · simp [mpesa_callback, hf]
        · intro e' he
          cases he
        · intro he
          cases he
        · intro rc' rd' rcpt' he
          cases he
        · intro cid' rc' rd' rcpt' he hnone
          cases he
          rw [hf] at hnone
          cases hnone

theorem claim_C7_acknowledgment_witness :
    payUnknownOut.1 = payState0
    ∧ payUnknownOut.2 =
      { httpStatus := 404, resultCode := 1, resultDesc := "Transaction not found" } :=
  (claim_C7_acknowledgment seedvestConstants { year := 2025, month := 2, day := 10 }
    (.stk (some "ws_CO_MISSING") (some 0) (some "ok") none)
    payState0).2.2.2.2.2 "ws_CO_MISSING" (some 0) (some "ok") none rfl (by decide)

/-! Lemmas for the monthly generator. -/

theorem list_any_eq_false_of_count_zero {α : Type} (l : List α) (p : α → Bool)
    (h : (l.filter p).length = 0) : l.any p = false := by
  cases hany : l.any p with
  | false => rfl
  | true =>
    rcases List.any_eq_true.mp hany with ⟨x, hx, hpx⟩
    have hmem : x ∈ l.filter p := List.mem_filter.mpr ⟨hx, hpx⟩
    rw [List.length_eq_zero.mp h] at hmem
    cases hmem

/-- Any contribution present after a generator run was either already present
or is a fresh row created by `Contribution.save` on the PENDING template of
some config in the list. -/
theorem generateLoop_contributions_mem (cfg : PenaltyConfig) (today : PyDate)
    (target due : PyDate) (dr : Bool) (configs : List AutoSavingConfig) :
    ∀ (db : GenDB) (n : Nat) (counts : GenCounts) (c : Contribution),
      c ∈ (generateLoop cfg today target due dr configs db n counts).1.contributions →
      c ∈ db.contributions
      ∨ ∃ config ∈ configs, ∃ nid,
          c = Contribution.save cfg today
            { id := nid, userId := config.userId, groupId := config.groupId,
              amount := config.amount, due_date := due, paid_date := none,
              status := "PENDING", penalty := 0 } := by
  induction configs with
  | nil =>
    intro db n counts c hc
    exact Or.inl hc
  | cons config rest ih =>
    intro db n counts c hc
    rw [generateLoop] at hc
    by_cases hg : (db.generations.any fun g =>
        decide (g.configId = config.id) && decide (g.generated_for_month = target)) = true
    · rw [if_pos hg] at hc
      rcases ih db n _ c hc with h | ⟨cf, hcf, nid, heq⟩
      · exact Or.inl h
      · exact Or.inr ⟨cf, List.mem_cons_of_mem _ hcf, nid, heq⟩
    · rw [if_neg hg] at hc
      by_cases hd : dr = true
      · rw [if_pos hd] at hc
        rcases ih db n _ c hc with h | ⟨cf, hcf, nid, heq⟩
        · exact Or.inl h
        · exact Or.inr ⟨cf, List.mem_cons_of_mem _ hcf, nid, heq⟩
      · rw [if_neg hd] at hc
        rcases ih _ _ _ c hc with h | ⟨cf, hcf, nid, heq⟩
        · rcases List.mem_append.mp h with h1 | h1
          · exact Or.inl h1
          · rcases List.mem_singleton.mp h1 with rfl
            exact Or.inr ⟨config, List.mem_cons_self _ _, n, rfl⟩
        · exact Or.inr ⟨cf, List.mem_cons_of_mem _ hcf, nid, heq⟩

/-- Claim C5: running the generator twice for the same target month over the
same single active config creates exactly one Contribution and exactly one
audit record: the first run reports one creation, adds one contribution row
and leaves exactly one (config, target month) audit row; the second run finds
that audit row, creates nothing, returns the state unchanged and counts the
config as skipped. -/
theorem claim_C5_generator_idempotent (cfg : PenaltyConfig)
    (today target : PyDate) (config : AutoSavingConfig) (db : GenDB)
    (n1 n2 : Nat) (hactive : config.is_active = true)
    (hnone : generationCount db.generations config.id target = 0) :
    (Command.handle cfg today target false [config] db n1).2 =
      { created := 1, skipped := 0 }
    ∧ (Command.handle cfg today target false [config] db n1).1.contributions.length =
        db.contributions.length + 1
    ∧ generationCount
        (Command.handle cfg today target false [config] db n1).1.generations
        config.id target = 1
    ∧ Command.handle cfg today target false [config]
        (Command.handle cfg today target false [config] db n1).1 n2 =
      ((Command.handle cfg today target false [config] db n1).1,
       { created := 0, skipped := 1 }) := by
  have hany : (db.generations.any fun g =>
      decide (g.configId = config.id) && decide (g.generated_for_month = target)) = false :=
    list_any_eq_false_of_count_zero _ _ hnone
  have hfil : ([config].filter fun c => c.is_active) = [config] := by
    simp [List.filter, hactive]
  refine ⟨?_, ?_, ?_, ?_⟩
  · simp [Command.handle, generateLoop, hfil, hany]
  · simp [Command.handle, generateLoop, hfil, hany]
  · simp only [Command.handle, generateLoop, hfil, hany, Bool.false_eq_true,
      if_false]
    unfold generationCount at hnone ⊢
    simp [List.filter_append, hnone]
  · simp [Command.handle, generateLoop, hfil, hany, List.any_append]

theorem claim_C5_generator_idempotent_witness :
    genConfig.is_active = true
    ∧ generationCount genDB0.generations genConfig.id
        { year := 2025, month := 1, day := 1 } = 0
    ∧ (Command.handle seedvestConstants { year := 2025, month := 3, day := 5 }
        { year := 2025, month := 1, day := 1 } false [genConfig] genDB0 1).2 =
      { created := 1, skipped := 0 } :=
  ⟨by decide, by decide,
   (claim_C5_generator_idempotent seedvestConstants
      { year := 2025, month := 3, day := 5 } { year := 2025, month := 1, day := 1 }
      genConfig genDB0 1 7 (by decide) (by decide)).1⟩

/-- Claim C10: when the generator runs for an explicit target month whose
last day is already past, every contribution it creates — though built with
status "PENDING" — is persisted with status OVERDUE (the model save
re-derives it), and carries the nonzero fixed auto-penalty of 100 whenever
today has reached the first of the month after the target month. -/
theorem claim_C10_backfill_overdue (today target : PyDate) (dr : Bool)
    (configs : List AutoSavingConfig) (db : GenDB) (n : Nat)
    (hlate : PyDate.blt
      { year := target.year, month := target.month,
        day := daysInMonth target.year target.month } today = true) :
    ∀ c ∈ (Command.handle seedvestConstants today target dr configs db n).1.contributions,
      c ∈ db.contributions
      ∨ (c.status = "OVERDUE"
         ∧ (PyDate.ble (firstOfNextMonth target) today = true →
             c.penalty = 100 ∧ (100 : ℚ) ≠ 0)) := by
  intro c hc
  rcases generateLoop_contributions_mem seedvestConstants today target _ dr _
      db n _ c hc with h | ⟨config, _, nid, rfl⟩
  · exact Or.inl h
  · refine Or.inr ⟨?_, ?_⟩
    · unfold Contribution.save Contribution.evaluate_status
      simp [hlate]
    · intro hble
      refine ⟨?_, by norm_num⟩
      have hblt : PyDate.blt today (firstOfNextMonth target) = false :=
        (PyDate.blt_eq_false_iff today (firstOfNextMonth target)).mpr hble
      unfold Contribution.save
      rw [calculate_eq_specPenalty]
      unfold specPenalty
      simp only [Option.isSome_none, Bool.false_eq_true, if_false]
      have hfn : firstOfNextMonth
          ({ id := nid, userId := config.userId, groupId := config.groupId,
             amount := config.amount,
             due_date :=
               { year := target.year, month := target.month,
                 day := daysInMonth target.year target.month },
             paid_date := none, status := "PENDING",
             penalty := 0 } : Contribution).due_date = firstOfNextMonth target := by
        unfold firstOfNextMonth
        rfl
      rw [hfn, hblt]
      simp [seedvestConstants]

theorem claim_C10_backfill_overdue_witness :
    PyDate.blt
      { year := 2025, month := 1, day := daysInMonth 2025 1 }
      { year := 2025, month := 3, day := 5 } = true
    ∧ ∀ c ∈ (Command.handle seedvestConstants { year := 2025, month := 3, day := 5 }
        { year := 2025, month := 1, day := 1 } false [genConfig] genDB0 1).1.contributions,
        c ∈ genDB0.contributions
        ∨ (c.status = "OVERDUE"
           ∧ (PyDate.ble (firstOfNextMonth { year := 2025, month := 1, day := 1 })
               { year := 2025, month := 3, day := 5 } = true →
               c.penalty = 100 ∧ (100 : ℚ) ≠ 0)) :=
  ⟨by decide,
   claim_C10_backfill_overdue { year := 2025, month := 3, day := 5 }
     { year := 2025, month := 1, day := 1 } false [genConfig] genDB0 1 (by decide)⟩

end SeedVest
